import Mathlib

/-!
Verification of the valAgent validation engine against its specification.

The Python sources are shallowly embedded: result rows become association
lists over a `Value` type mirroring the dynamic values the code handles
(int, float, str, bool, None); Python floats are modelled as rationals,
wall-clock timing is abstracted to 0, and the SHA-256 digest is modelled by
the canonical serialization it hashes (an injective stand-in; only digest
equality is ever used).  Stateful/async code becomes explicit data flow: the
database backend is a function from SQL text to an outcome, and
`asyncio.gather(..., return_exceptions=True)` is modelled as the list of
per-task outcomes (`Except` values), one per input task in input order.
-/

namespace ValAgent

/-- Dynamic values occurring in query-result rows.  Python booleans are a
subclass of `int`, so they count as numeric below. -/
inductive Value where
  | intV (z : Int)
  | floatV (q : ℚ)
  | strV (s : String)
  | boolV (b : Bool)
  | nullV
deriving DecidableEq

/-- One result row: a Python dict from column name to value. -/
abbrev Row := List (String × Value)

/-- Python `row.get(k, d)`: the stored value when the key is present (even
when that stored value is `None`), otherwise the default. -/
def rowGetD (r : Row) (k : String) (d : Value) : Value :=
  match r.find? (fun p => p.1 == k) with
  | some p => p.2
  | none => d

/-- Python `row.get(k)`: `None` when the key is missing. -/
def rowGet (r : Row) (k : String) : Value :=
  rowGetD r k .nullV

/-- Numeric reading of a value, mirroring `isinstance(v, (int, float))`
(booleans included, as in Python). -/
def Value.toQ? : Value → Option ℚ
  | .intV z => some (z : ℚ)
  | .floatV q => some q
  | .boolV b => some (if b then 1 else 0)
  | .strV _ => none
  | .nullV => none

/-- Mirrors `isinstance(v, float)`. -/
def Value.isFloat : Value → Bool
  | .floatV _ => true
  | _ => false

/-- Python `str(v)`.  The decimal rendering of floats is abstracted by the
rational's own rendering; only equality of renderings is ever used, and no
claim depends on cross-type renderings involving floats. -/
def Value.pyStr : Value → String
  | .intV z => toString z
  | .floatV q => toString q
  | .strV s => s
  | .boolV b => if b then "True" else "False"
  | .nullV => "None"

/-- Python `==` between dynamic values: numeric values compare by value
(so `1 == 1.0 == True`), strings by content, `None == None`, and any other
cross-type comparison is `False`. -/
def pyEq (a b : Value) : Bool :=
  match a.toQ?, b.toQ? with
  | some x, some y => decide (x = y)
  | _, _ =>
    match a, b with
    | .strV s, .strV t => s == t
    | .nullV, .nullV => true
    | _, _ => false

/-- Python `a > b`: defined for two numbers or two strings, a `TypeError`
(`none`) otherwise. -/
def pyGt (a b : Value) : Option Bool :=
  match a.toQ?, b.toQ? with
  | some x, some y => some (decide (y < x))
  | _, _ =>
    match a, b with
    | .strV s, .strV t => some (decide (t < s))
    | _, _ => none

/-- Embeds `valagent.database.models.QueryResult`.  `execution_time_ms` is
kept for the pass-through sums the comparator performs; wall-clock
measurement itself is abstracted to 0 at the executor. -/
structure QueryResult where
  query : String
  database : String
  success : Bool
  rows : List Row := []
  row_count : Nat := 0
  columns : List String := []
  execution_time_ms : ℚ := 0
  error : Option String := none
deriving DecidableEq

/-- Tags of the `"type"` field of the difference dicts the comparator
builds. -/
inductive DiffKind where
  | count_mismatch
  | execution_error
  | missing_value
  | value_mismatch
  | missing_in_target
  | extra_in_target
  | hash_mismatch
  | expected_empty
  | expected_not_empty
  | count_below_threshold
deriving DecidableEq

/-- One itemized difference dict.  Payload fields that no claim inspects
(sample records, per-column sub-difference lists, digests, rounded
percentages) are projected away. -/
structure Difference where
  kind : DiffKind
  column : Option String := none
  rowKey : List (String × Value) := []
  source_value : Option Value := none
  target_value : Option Value := none
deriving DecidableEq

/-- Embeds `valagent.database.models.ComparisonResult`.  The row-count
fields are rationals because `compare_counts` stores the numeric counts it
extracted from the first result row. -/
structure ComparisonResult where
  source_query : String
  target_query : String
  source_row_count : ℚ
  target_row_count : ℚ
  matched : Bool
  differences : List Difference
  difference_count : Nat
  comparison_type : String
  execution_time_ms : ℚ
deriving DecidableEq

/-- Count extraction of `DataComparator.compare_counts` (lines 40-50):
the first row's `"count"` value, falling back to `"total"`, then to 0;
0 outright when the query failed or returned no rows. -/
def extractCount (res : QueryResult) : Value :=
  if res.success && !res.rows.isEmpty then
    let firstRow := res.rows.headD []
    rowGetD firstRow "count" (rowGetD firstRow "total" (.intV 0))
  else .intV 0

/-- Percentage difference of `compare_counts` (lines 52-57):
`difference / source_count` when the source count is positive, otherwise
1.0 when the target count is positive and 0.0 when it is not. -/
def percentageDiff (s t : ℚ) : ℚ :=
  if 0 < s then abs (s - t) / s else if 0 < t then 1 else 0

/-- Embeds `DataComparator.compare_counts`.  Returns `none` when an
extracted count is not numeric (Python would raise a `TypeError` on the
subtraction). -/
def compareCounts (source target : QueryResult) (tolerance : ℚ) :
    Option ComparisonResult :=
  match (extractCount source).toQ?, (extractCount target).toQ? with
  | some s, some t =>
    let matched := decide (percentageDiff s t ≤ tolerance)
    let diffs : List Difference :=
      if matched then []
      else [{ kind := .count_mismatch, source_value := some (extractCount source),
              target_value := some (extractCount target) }]
    some { source_query := source.query, target_query := target.query,
           source_row_count := s, target_row_count := t,
           matched := matched, differences := diffs,
           difference_count := diffs.length, comparison_type := "count",
           execution_time_ms := source.execution_time_ms + target.execution_time_ms }
  | _, _ => none

/-- Keys of a row dict, in insertion order (Python dict keys are unique;
`dedup` keeps the first occurrence). -/
def pyDictKeys (r : Row) : List String :=
  (r.map Prod.fst).dedup

/-- Iteration domain `set(source_row.keys()) | set(target_row.keys())` of
`compare_aggregations`.  Python iterates this set in unspecified order; we
fix first-occurrence order, and no claim depends on the order. -/
def keysUnion (a b : Row) : List String :=
  (pyDictKeys a ++ pyDictKeys b).dedup

/-- Loop body of `compare_aggregations` (lines 111-156) for one key: the
differences (0 or 1) this key contributes. -/
def aggKeyDiffs (tolerance : ℚ) (sourceRow targetRow : Row) (key : String) :
    List Difference :=
  let sv := rowGet sourceRow key
  let tv := rowGet targetRow key
  if sv = .nullV ∧ tv = .nullV then []
  else if sv = .nullV ∨ tv = .nullV then
    [{ kind := .missing_value, column := some key,
       source_value := some sv, target_value := some tv }]
  else
    match sv.toQ?, tv.toQ? with
    | some s, some t =>
      let matched := if s = 0 then decide (t = 0)
                     else decide (abs (s - t) / abs s ≤ tolerance)
      if matched then []
      else [{ kind := .value_mismatch, column := some key,
              source_value := some sv, target_value := some tv }]
    | _, _ =>
      if sv.pyStr ≠ tv.pyStr then
        [{ kind := .value_mismatch, column := some key,
           source_value := some sv, target_value := some tv }]
      else []

/-- Embeds `DataComparator.compare_aggregations`. -/
def compareAggregations (source target : QueryResult) (tolerance : ℚ) :
    ComparisonResult :=
  if source.success && target.success then
    let sourceRow := source.rows.headD []
    let targetRow := target.rows.headD []
    let diffs := (keysUnion sourceRow targetRow).foldl
      (fun acc k => acc ++ aggKeyDiffs tolerance sourceRow targetRow k) []
    { source_query := source.query, target_query := target.query,
      source_row_count := 1, target_row_count := 1,
      matched := diffs.isEmpty, differences := diffs,
      difference_count := diffs.length, comparison_type := "aggregation",
      execution_time_ms := source.execution_time_ms + target.execution_time_ms }
  else
    { source_query := source.query, target_query := target.query,
      source_row_count := source.row_count, target_row_count := target.row_count,
      matched := false, differences := [{ kind := .execution_error }],
      difference_count := 1, comparison_type := "aggregation",
      execution_time_ms := source.execution_time_ms + target.execution_time_ms }

/-- Embeds `DataComparator._values_equal`: `None` only equals `None`,
strings compare with optional case folding, numbers exactly when both are
ints (or bools) and within `1e-9` when a float is involved, and all other
cross-type pairs via Python `==` (false for distinct constructors). -/
def valuesEqual (v1 v2 : Value) (caseSensitive : Bool) : Bool :=
  match v1, v2 with
  | .nullV, .nullV => true
  | .nullV, _ => false
  | _, .nullV => false
  | .strV a, .strV b => if caseSensitive then a == b else a.toLower == b.toLower
  | _, _ =>
    match v1.toQ?, v2.toQ? with
    | some q1, some q2 =>
      if v1.isFloat || v2.isFloat then decide (abs (q1 - q2) < (1 : ℚ) / 1000000000)
      else decide (q1 = q2)
    | _, _ => decide (v1 = v2)

/-- Key tuple `make_key` of `compare_data_rows`: the row's values at the key
columns, in key-column order. -/
def makeKey (keyColumns : List String) (r : Row) : List Value :=
  keyColumns.map (fun c => rowGet r c)

/-- Dict insertion: replace the value in place when the key exists (keeping
its original position, as Python dicts do), otherwise append. -/
def upsert (k : List Value) (r : Row) :
    List (List Value × Row) → List (List Value × Row)
  | [] => [(k, r)]
  | p :: ps => if p.1 = k then (k, r) :: ps else p :: upsert k r ps

/-- Lookup dict `{make_key(row): row for row in rows}`: later rows with the
same key overwrite earlier ones. -/
def buildLookup (keyColumns : List String) (rows : List Row) :
    List (List Value × Row) :=
  rows.foldl (fun acc r => upsert (makeKey keyColumns r) r acc) []

/-- Value stored under a key in a lookup dict. -/
def lookupRow (m : List (List Value × Row)) (k : List Value) : Option Row :=
  match m.find? (fun p => decide (p.1 = k)) with
  | some p => some p.2
  | none => none

/-- Key set of a lookup dict (distinct by construction of `buildLookup`). -/
def keyList (m : List (List Value × Row)) : List (List Value) :=
  m.map Prod.fst

/-- First two difference loops of `compare_data_rows` (lines 220-236): the
surrounding slice already bounds the iteration, and the `break` stops
appending once the accumulated list reaches the cap. -/
def capLoop (cap : Nat) (mk : List Value → Difference) :
    List (List Value) → List Difference → List Difference
  | [], acc => acc
  | k :: ks, acc =>
    if cap ≤ acc.length then acc
    else capLoop cap mk ks (acc ++ [mk k])

/-- Third loop of `compare_data_rows` (lines 243-267): iterate the common
keys, appending the difference `f` produces (if any) until the accumulated
list reaches the cap. -/
def commonLoop (cap : Nat) (f : List Value → Option Difference) :
    List (List Value) → List Difference → List Difference
  | [], acc => acc
  | k :: ks, acc =>
    if cap ≤ acc.length then acc
    else
      match f k with
      | some d => commonLoop cap f ks (acc ++ [d])
      | none => commonLoop cap f ks acc

/-- Per-column mismatches (`row_differences`) of one common key. -/
def rowValueDiffs (colsToCompare : List String) (sourceRow targetRow : Row)
    (caseSensitive : Bool) : List (String × Value × Value) :=
  colsToCompare.filterMap (fun col =>
    let sv := rowGet sourceRow col
    let tv := rowGet targetRow col
    if valuesEqual sv tv caseSensitive then none else some (col, sv, tv))

/-- The `value_mismatch` difference one common key contributes, if any
(lines 243-267; the per-column sub-list payload is projected away). -/
def vmDiffAt (keyColumns : List String)
    (sourceLookup targetLookup : List (List Value × Row))
    (colsToCompare : List String) (caseSensitive : Bool) (k : List Value) :
    Option Difference :=
  let sourceRow := (lookupRow sourceLookup k).getD []
  let targetRow := (lookupRow targetLookup k).getD []
  if (rowValueDiffs colsToCompare sourceRow targetRow caseSensitive).isEmpty then none
  else some { kind := .value_mismatch, rowKey := keyColumns.zip k }

/-- Columns `compare_data_rows` compares: the given list when non-empty
(Python `compare_columns or [...]` treats `[]` like `None`), else all
result columns outside the key columns. -/
def columnsToCompare (compareColumns : Option (List String))
    (resultColumns keyColumns : List String) : List String :=
  match compareColumns with
  | some cs =>
    if cs.isEmpty then resultColumns.filter (fun c => decide (c ∉ keyColumns))
    else cs
  | none => resultColumns.filter (fun c => decide (c ∉ keyColumns))

/-- Difference-building pipeline of `compare_data_rows` (lines 220-267):
the capped missing-keys loop, the capped extra-keys loop over the remaining
budget, and the capped common-keys loop. -/
def dataRowsDiffs (cap : Nat) (mk1 mk2 : List Value → Difference)
    (missing extra common : List (List Value))
    (f : List Value → Option Difference) : List Difference :=
  let d1 := capLoop cap mk1 (missing.take cap) []
  let d2 := capLoop cap mk2 (extra.take (cap - d1.length)) d1
  commonLoop cap f common d2

/-- Embeds `DataComparator.compare_data_rows`.  The membership order of the
set differences is fixed to first-insertion order; only their sizes and
memberships matter to the claims. -/
def compareDataRows (source target : QueryResult) (keyColumns : List String)
    (compareColumns : Option (List String)) (caseSensitive : Bool)
    (maxDifferences : Nat) : ComparisonResult :=
  if source.success && target.success then
    let sourceLookup := buildLookup keyColumns source.rows
    let targetLookup := buildLookup keyColumns target.rows
    let sourceKeys := keyList sourceLookup
    let targetKeys := keyList targetLookup
    let missingInTarget := sourceKeys.filter (fun k => decide (k ∉ targetKeys))
    let extraInTarget := targetKeys.filter (fun k => decide (k ∉ sourceKeys))
    let commonKeys := sourceKeys.filter (fun k => decide (k ∈ targetKeys))
    let cols := columnsToCompare compareColumns source.columns keyColumns
    let d3 := dataRowsDiffs maxDifferences
      (fun k => { kind := .missing_in_target, rowKey := keyColumns.zip k })
      (fun k => { kind := .extra_in_target, rowKey := keyColumns.zip k })
      missingInTarget extraInTarget commonKeys
      (vmDiffAt keyColumns sourceLookup targetLookup cols caseSensitive)
    let totalDifferences := missingInTarget.length + extraInTarget.length +
      (d3.filter (fun d => decide (d.kind = .value_mismatch))).length
    { source_query := source.query, target_query := target.query,
      source_row_count := source.row_count, target_row_count := target.row_count,
      matched := decide (totalDifferences = 0), differences := d3,
      difference_count := totalDifferences, comparison_type := "data",
      execution_time_ms := source.execution_time_ms + target.execution_time_ms }
  else
    { source_query := source.query, target_query := target.query,
      source_row_count := source.row_count, target_row_count := target.row_count,
      matched := false, differences := [{ kind := .execution_error }],
      difference_count := 1, comparison_type := "data",
      execution_time_ms := source.execution_time_ms + target.execution_time_ms }

/-- Total number of differences present in the inputs of
`compare_data_rows`, per the spec's notion of "counts beyond the cap":
all missing keys, all extra keys, and all common keys whose compared
columns mismatch, without any cap. -/
def uncappedDifferenceTotal (source target : QueryResult)
    (keyColumns : List String) (compareColumns : Option (List String))
    (caseSensitive : Bool) : Nat :=
  let sourceLookup := buildLookup keyColumns source.rows
  let targetLookup := buildLookup keyColumns target.rows
  let sourceKeys := keyList sourceLookup
  let targetKeys := keyList targetLookup
  let missingInTarget := sourceKeys.filter (fun k => decide (k ∉ targetKeys))
  let extraInTarget := targetKeys.filter (fun k => decide (k ∉ sourceKeys))
  let commonKeys := sourceKeys.filter (fun k => decide (k ∈ targetKeys))
  let cols := columnsToCompare compareColumns source.columns keyColumns
  missingInTarget.length + extraInTarget.length +
    (commonKeys.filterMap
      (vmDiffAt keyColumns sourceLookup targetLookup cols caseSensitive)).length

/-- Rendering of one value inside `json.dumps(..., default=str)`.  String
escaping and the decimal float format are abstracted; only equality of
serializations is ever used. -/
def jsonValue : Value → String
  | .intV z => toString z
  | .floatV q => toString q
  | .strV s => "\"" ++ s ++ "\""
  | .boolV b => if b then "true" else "false"
  | .nullV => "null"

/-- Insertion sort by a boolean comparison, used for the canonical orders
`json.dumps(..., sort_keys=True)` and `sorted(rows, key=...)` produce. -/
def insertSorted (le : α → α → Bool) (x : α) : List α → List α
  | [] => [x]
  | y :: ys => if le x y then x :: y :: ys else y :: insertSorted le x ys

/-- Sort a list by a boolean comparison (stable insertion sort). -/
def sortByLe (le : α → α → Bool) : List α → List α
  | [] => []
  | x :: xs => insertSorted le x (sortByLe le xs)

/-- Mirrors `json.dumps(row, sort_keys=True, default=str)`. -/
def jsonRow (r : Row) : String :=
  let keys := sortByLe (fun a b => decide (a ≤ b)) (pyDictKeys r)
  "\x7b" ++ String.intercalate ", "
    (keys.map (fun k => "\"" ++ k ++ "\": " ++ jsonValue (rowGet r k))) ++ "\x7d"

/-- The `compute_hash` canonicalization of `compare_hashes` (lines 296-300):
rows sorted by their serialization, then serialized as a list.  The SHA-256
digest is modelled by this serialization itself (an injective stand-in;
only digest equality is used, and a digest of a non-empty row list is never
the empty string, like a real hex digest). -/
def computeHash (rows : List Row) : String :=
  let sortedRows := sortByLe (fun a b => decide (jsonRow a ≤ jsonRow b)) rows
  "[" ++ String.intercalate ", " (sortedRows.map jsonRow) ++ "]"

/-- Digest with the empty fallback of lines 302-303:
`compute_hash(rows) if rows else ""`. -/
def hashOfRows (rows : List Row) : String :=
  if rows.isEmpty then "" else computeHash rows

/-- Embeds `DataComparator.compare_hashes`. -/
def compareHashes (source target : QueryResult) : ComparisonResult :=
  let sourceHash := hashOfRows source.rows
  let targetHash := hashOfRows target.rows
  let matched := sourceHash == targetHash
  { source_query := source.query, target_query := target.query,
    source_row_count := source.row_count, target_row_count := target.row_count,
    matched := matched,
    differences := if matched then [] else [{ kind := .hash_mismatch }],
    difference_count := if matched then 0 else 1, comparison_type := "hash",
    execution_time_ms := source.execution_time_ms + target.execution_time_ms }

/-- Embeds `DataComparator.validate_target_only`.  The condition name is
kept as a string to mirror the `if/elif` chain; an unknown condition leaves
`matched = True` with no differences.  Returns `none` exactly where Python
raises (`count_greater_than` on non-comparable operands). -/
def validateTargetOnly (target : QueryResult) (expectedCondition : String)
    (expectedValue : Option Value) : Option ComparisonResult :=
  if target.success = false then
    some { source_query := "N/A", target_query := target.query,
           source_row_count := 0, target_row_count := 0,
           matched := false, differences := [{ kind := .execution_error }],
           difference_count := 1, comparison_type := "custom",
           execution_time_ms := target.execution_time_ms }
  else
    let base : ComparisonResult :=
      { source_query := "N/A", target_query := target.query,
        source_row_count := 0, target_row_count := target.row_count,
        matched := true, differences := [], difference_count := 0,
        comparison_type := "custom",
        execution_time_ms := target.execution_time_ms }
    if expectedCondition = "empty" then
      let matched := decide (target.row_count = 0)
      some { base with
             matched := matched
             differences := if matched then [] else [{ kind := .expected_empty }]
             difference_count := if matched then 0 else 1 }
    else if expectedCondition = "not_empty" then
      let matched := decide (0 < target.row_count)
      some { base with
             matched := matched
             differences := if matched then [] else [{ kind := .expected_not_empty }]
             difference_count := if matched then 0 else 1 }
    else if expectedCondition = "count_equals" then
      let actual := if target.rows.isEmpty then Value.intV 0
                    else rowGetD (target.rows.headD []) "count" (.intV 0)
      let matched := pyEq actual (expectedValue.getD .nullV)
      some { base with
             matched := matched
             differences := if matched then []
               else [{ kind := .count_mismatch,
                       source_value := some (expectedValue.getD .nullV),
                       target_value := some actual }]
             difference_count := if matched then 0 else 1 }
    else if expectedCondition = "count_greater_than" then
      let actual := if target.rows.isEmpty then Value.intV 0
                    else rowGetD (target.rows.headD []) "count" (.intV 0)
      match pyGt actual (expectedValue.getD .nullV) with
      | none => none
      | some matched =>
        some { base with
               matched := matched
               differences := if matched then []
                 else [{ kind := .count_below_threshold,
                         source_value := some (expectedValue.getD .nullV),
                         target_value := some actual }]
               difference_count := if matched then 0 else 1 }
    else
      some base

/-- Response of the database-access layer to one submitted SQL statement:
rows, a backend exception, or an `asyncio.TimeoutError`. -/
inductive BackendOutcome where
  | ok (rows : List Row)
  | err (msg : String)
  | timeout
deriving DecidableEq

/-- Embeds `TestExecutor.execute_query` (executor.py lines 28-101).  The
backend is a function from SQL text to its outcome; the function submits
the given SQL to it unconditionally.  Every branch — backend success,
backend exception, timeout, and the invalid-database `ValueError` (raised
inside the `try` and caught by the generic handler) — returns a
`QueryResult`; the Python function never raises.  Timing is abstracted
to 0. -/
def executeQuery (backend : String → BackendOutcome) (query : String)
    (database : String) (timeout : Nat) : QueryResult :=
  if database = "source" ∨ database = "target" then
    match backend query with
    | .ok rows =>
      { query := query, database := database, success := true,
        rows := rows, row_count := rows.length,
        columns := pyDictKeys (rows.headD []) }
    | .timeout =>
      { query := query, database := database, success := false,
        error := some ("Query timeout after " ++ toString timeout ++ " seconds") }
    | .err msg =>
      { query := query, database := database, success := false,
        error := some msg }
  else
    { query := query, database := database, success := false,
      error := some ("Invalid database: " ++ database) }

/-- Forbidden keyword list of `SQLGenerator.__init__` (sql_generator.py
lines 26-39). -/
def forbiddenPatterns : List String :=
  ["INSERT", "UPDATE", "DELETE", "DROP", "TRUNCATE", "ALTER", "CREATE",
   "GRANT", "REVOKE", "EXECUTE", "EXEC", "INTO"]

/-- Word characters of the regex `\b` boundary: `[A-Za-z0-9_]`. -/
def isWordChar (c : Char) : Bool :=
  c.isAlphanum || c == '_'

/-- Python `s.upper()`, implemented over the character list so that proofs
can evaluate it. -/
def pyToUpper (s : String) : String :=
  String.mk (s.data.map Char.toUpper)

/-- Whitespace stripped by Python `str.strip()`. -/
def pyIsSpace (c : Char) : Bool :=
  c == ' ' || c == '\t' || c == '\n' || c == '\r'

/-- Python `s.strip()`. -/
def pyStrip (s : String) : String :=
  String.mk (((s.data.dropWhile pyIsSpace).reverse.dropWhile pyIsSpace).reverse)

/-- Character-list core of Python `s.startswith(pat)`. -/
def listStartsWith : List Char → List Char → Bool
  | _, [] => true
  | [], _ :: _ => false
  | c :: cs, p :: ps => c == p && listStartsWith cs ps

/-- Python `s.startswith(pat)`. -/
def strStartsWith (s pat : String) : Bool :=
  listStartsWith s.data pat.data

/-- Python slicing `s[:n]`. -/
def pySlice (s : String) (n : Nat) : String :=
  String.mk (s.data.take n)

/-- Accumulator pass splitting a character list into maximal word runs. -/
def wordTokensAux : List Char → List Char → List String
  | [], cur => if cur.isEmpty then [] else [String.mk cur.reverse]
  | c :: cs, cur =>
    if isWordChar c then wordTokensAux cs (c :: cur)
    else if cur.isEmpty then wordTokensAux cs []
    else String.mk cur.reverse :: wordTokensAux cs []

/-- Maximal word-character runs of a string.  A purely alphanumeric pattern
matches `\bP\b` somewhere in `s` exactly when it is one of these runs. -/
def wordTokens (s : String) : List String :=
  wordTokensAux s.data []

/-- Allowed statement prefixes of `_validate_sql_safety` (line 61): note
that SQL comments are accepted as openers in addition to SELECT/WITH. -/
def validStarts : List String :=
  ["SELECT", "WITH", "--", "/*"]

/-- Embeds `SQLGenerator._validate_sql_safety` (lines 41-65). -/
def validateSqlSafety (sql : String) : Bool × String :=
  if sql = "" then (true, "")
  else
    let sqlUpper := pyToUpper sql
    match forbiddenPatterns.find? (fun p => (wordTokens sqlUpper).contains p) with
    | some p => (false, "Unsafe SQL: Contains forbidden keyword " ++ p)
    | none =>
      let sqlStripped := pyStrip sql
      if validStarts.any (fun s => strStartsWith (pyToUpper sqlStripped) s)
      then (true, "")
      else (false, "SQL must start with SELECT or WITH")

/-- Post-processing the generator applies to each LLM-produced query field
(sql_generator.py lines 127-137 and analogues): a non-empty query that
fails the safety check is replaced by `None`; everything else is kept. -/
def sanitizeGeneratedQuery (query : Option String) : Option String :=
  match query with
  | none => none
  | some q => if q ≠ "" ∧ (validateSqlSafety q).1 = false then none else some q

/-- Status enum of `valagent.database.models.ValidationStatus`. -/
inductive ValidationStatus where
  | pending
  | running
  | passed
  | failed
  | error
  | skipped
deriving DecidableEq

/-- Embeds `valagent.database.models.TestCase` (fields the engine loop
touches). -/
structure TestCase where
  id : String
  name : String
  source_query : Option String := none
  target_query : Option String := none
  validation_type : String
  status : ValidationStatus
  error_message : Option String := none
deriving DecidableEq

/-- Embeds `valagent.database.models.ValidationRun` (fields the engine
mutates or reads). -/
structure ValidationRun where
  id : String
  name : String
  test_cases : List TestCase
  status : ValidationStatus
  total_tests : Nat
  passed_tests : Nat
  failed_tests : Nat
  error_tests : Nat
deriving DecidableEq

/-- Result-processing step for one position of the engine loop
(engine.py lines 205-211): an exception from `asyncio.gather` turns the
stored test case into an `error` outcome carrying the message; a returned
test case replaces the stored one. -/
def applyOutcome (tc : TestCase) (outcome : Except String TestCase) : TestCase :=
  match outcome with
  | .error msg => { tc with status := .error, error_message := some msg }
  | .ok result => result

/-- Embeds the result-processing loop of `execute_validation_run`
(lines 200-221): the updated test-case list plus the `passed`, `failed`
and `errors` tallies.  Counting the updated statuses is equivalent to the
source's per-branch counters because an exception at position `i` sets
that status to `error`, and statuses outside passed/failed/error are
counted nowhere, as in the source. -/
def processCompleted (tcs : List TestCase)
    (completed : List (Except String TestCase)) :
    List TestCase × Nat × Nat × Nat :=
  let updated := List.zipWith applyOutcome tcs completed
  (updated,
   (updated.filter (fun tc => decide (tc.status = .passed))).length,
   (updated.filter (fun tc => decide (tc.status = .failed))).length,
   (updated.filter (fun tc => decide (tc.status = .error))).length)

/-- Embeds `ValidationEngine.execute_validation_run` (lines 164-244).
The repository lookup is the `Option` argument; `completed` is the
`asyncio.gather(..., return_exceptions=True)` outcome list, one entry per
test case in input order.  Note the function consults only the run's test
cases: its previous status and counters are never read, only overwritten. -/
def executeValidationRun (runLookup : Option ValidationRun)
    (completed : List (Except String TestCase)) :
    Except String ValidationRun :=
  match runLookup with
  | none => .error "Validation run not found"
  | some run =>
    let result := processCompleted run.test_cases completed
    let status := if 0 < result.2.2.2 then ValidationStatus.error
                  else if 0 < result.2.2.1 then ValidationStatus.failed
                  else ValidationStatus.passed
    .ok { run with
          test_cases := result.1
          passed_tests := result.2.1
          failed_tests := result.2.2.1
          error_tests := result.2.2.2
          status := status }

end ValAgent

namespace EtlValidator

open ValAgent

/-- Embeds `etl_validator.utils.helpers.compare_values`: tolerance-aware
numeric comparison (applied only when a tolerance is given and both values
are numeric), otherwise strip-and-lowercase string comparison, otherwise
Python `==`. -/
def compare_values (source_value target_value : Value) (tolerance : Option ℚ) :
    Bool :=
  if source_value = .nullV ∧ target_value = .nullV then true
  else if source_value = .nullV ∨ target_value = .nullV then false
  else
    match tolerance, source_value.toQ?, target_value.toQ? with
    | some tol, some s, some t =>
      if s = 0 ∧ t = 0 then true
      else if s = 0 then decide (abs t ≤ tol)
      else decide (abs ((s - t) / s) ≤ tol)
    | _, _, _ =>
      match source_value, target_value with
      | .strV a, .strV b => a.trim.toLower == b.trim.toLower
      | _, _ => pyEq source_value target_value

/-- Embeds `etl_validator.models.results.ComparisonDetail` (fields the
claims touch). -/
structure ComparisonDetail where
  comparison_type : String
  matched : Bool
  column_name : Option String := none
  row_key : Option String := none
deriving DecidableEq

/-- Count branch of `QueryExecutorService._compare_results`
(executor_service.py lines 182-194): row-list lengths are compared for
exact equality; the tolerance parameter of the query pair is not read, and
exactly one `ComparisonDetail` is emitted whether or not it matched. -/
def compareResultsCount (sourceData targetData : List Row)
    (_tolerance : Option ℚ) : Bool × List ComparisonDetail :=
  let matched := decide (sourceData.length = targetData.length)
  (matched, [{ comparison_type := "row_count", matched := matched }])

/-- Embeds `etl_validator.models.test_case.ValidationQuery` (fields the
executor reads). -/
structure ValidationQuery where
  id : String
  database : String
  sql : String
deriving DecidableEq

/-- Embeds `etl_validator.models.results.ExecutionProof` (timestamp and
timing abstracted). -/
structure ExecutionProof where
  query_id : String
  database : String
  sql : String
  row_count : Nat
  sample_data : List Row := []
  column_names : List String := []
  success : Bool
  error_message : Option String := none
deriving DecidableEq

/-- Embeds `etl_validator.core.exceptions.QueryExecutionError` (message
plus the details the constructor records). -/
structure QueryExecutionError where
  message : String
  queryText : String
  database : Option String
deriving DecidableEq

/-- Successful return dict of `_execute_single_query`. -/
structure SingleQueryResult where
  success : Bool
  data : List Row
  row_count : Nat
  proof : ExecutionProof
deriving DecidableEq

/-- Embeds `QueryExecutorService._execute_single_query` (lines 97-168).
On a backend exception (timeouts included, since the deadline is enforced
inside the database layer), the code builds a failure `ExecutionProof`,
discards it, and raises `QueryExecutionError` to its caller: the `Except`
error constructor models that raise. -/
def executeSingleQuery (backend : String → BackendOutcome)
    (query : ValidationQuery) : Except QueryExecutionError SingleQueryResult :=
  match backend query.sql with
  | .ok rows =>
    .ok { success := true, data := rows, row_count := rows.length,
          proof := { query_id := query.id, database := query.database,
                     sql := query.sql, row_count := rows.length,
                     sample_data := rows.take 10,
                     column_names := pyDictKeys (rows.headD []),
                     success := true } }
  | .err _ =>
    .error { message := "Query execution failed",
             queryText := ValAgent.pySlice query.sql 200, database := some query.database }
  | .timeout =>
    .error { message := "Query execution failed",
             queryText := ValAgent.pySlice query.sql 200, database := some query.database }

/-- Embeds `etl_validator.models.results.ResultStatus`. -/
inductive ResultStatus where
  | passed
  | failed
  | partialStatus
  | error
  | skipped
deriving DecidableEq

/-- Number of test results with the given status, as the comprehensions of
`_build_report` (lines 283-286) count them. -/
def countStatus (s : ResultStatus) (results : List ResultStatus) : Nat :=
  (results.filter (fun r => decide (r = s))).length

/-- Overall-status classification of `ValidationOrchestrator._build_report`
(lines 310-316): with failures but no errors, the run is `failed` only when
failures outnumber passes, and `partial` otherwise. -/
def overallStatus (results : List ResultStatus) : ResultStatus :=
  if 0 < countStatus .error results then .error
  else if 0 < countStatus .failed results then
    (if countStatus .passed results < countStatus .failed results then .failed
     else .partialStatus)
  else .passed

/-- Identity of one etl_validator test case (fields the parallel collector
reads). -/
structure EtlTestCase where
  id : String
  name : String
deriving DecidableEq

/-- Execution-result dict of `execute_test_case` (fields the claims
touch). -/
structure EtlExecResult where
  test_case_id : String
  test_case_name : String
  passed : Bool
  errors : List String
deriving DecidableEq

/-- Embeds the collection loop of
`QueryExecutorService.execute_test_cases_parallel` (lines 456-469): the
i-th gather outcome is paired with the i-th test case, and an exception
becomes a failed result carrying the message. -/
def processParallelResults (testCases : List EtlTestCase)
    (results : List (Except String EtlExecResult)) : List EtlExecResult :=
  List.zipWith (fun tc r =>
    match r with
    | .error msg => { test_case_id := tc.id, test_case_name := tc.name,
                      passed := false, errors := [msg] }
    | .ok res => res) testCases results

end EtlValidator

namespace SpecRules

/-- Stated by the spec (claim C1): for numeric aggregate pairs, match iff
`source == 0` and `|target| <= tolerance`, or `source != 0` and
`|source - target| / |source| <= tolerance`. -/
def specAggregateMatchRule (s t tol : ℚ) : Prop :=
  (s = 0 ∧ abs t ≤ tol) ∨ (s ≠ 0 ∧ abs (s - t) / abs s ≤ tol)

/-- Stated by the spec (claim C5): counts match iff equal, or iff
`|source - target| / max(source, 1) <= tolerance`. -/
def specCountMatchRule (s t tol : ℚ) : Prop :=
  s = t ∨ abs (s - t) / max s 1 ≤ tol

end SpecRules

open ValAgent EtlValidator SpecRules

/-- Helper: a boolean filter retains an element iff one satisfying the
predicate is present. -/
theorem filter_length_pos_iff {α : Type} (p : α → Bool) (l : List α) :
    0 < (l.filter p).length ↔ ∃ x ∈ l, p x = true := by
  rw [List.length_pos, ne_eq, List.filter_eq_nil_iff]
  push_neg
  simp

/-- Helper: pointwise description of `List.zipWith` through optional
indexing. -/
theorem zipWith_getElem_opt {α β γ : Type} (f : α → β → γ) :
    ∀ (as : List α) (bs : List β) (i : Nat),
      (List.zipWith f as bs)[i]? = as[i]?.bind (fun a => bs[i]?.map (f a)) := by
  intro as
  induction as with
  | nil => intro bs i; simp
  | cons a as ih =>
    intro bs i
    cases bs with
    | nil => simp
    | cons b bs =>
      cases i with
      | zero => simp
      | succ j => simpa using ih bs j

/-- C10: the Hash comparison never inspects the success flags; whenever
both row lists are empty — regardless of the success flags, error texts or
row counts — each side serializes to the empty digest and the outcome is
`matched = true` with zero differences. -/
theorem C10_hash_empty_rows_match (source target : QueryResult)
    (hs : source.rows = []) (ht : target.rows = []) :
    (compareHashes source target).matched = true ∧
    (compareHashes source target).differences = [] ∧
    hashOfRows source.rows = "" := by
  simp [compareHashes, hashOfRows, hs, ht]

theorem C10_hash_empty_rows_match_witness :
    (compareHashes
        { query := "SELECT a FROM t", database := "source", success := false,
          error := some "connection refused" }
        { query := "SELECT a FROM t", database := "target", success := false,
          error := some "timeout" }).matched = true ∧
    (compareHashes
        { query := "SELECT a FROM t", database := "source", success := false,
          error := some "connection refused" }
        { query := "SELECT a FROM t", database := "target", success := false,
          error := some "timeout" }).differences = [] ∧
    hashOfRows
      ({ query := "SELECT a FROM t", database := "source", success := false,
         error := some "connection refused" } : QueryResult).rows = "" :=
  C10_hash_empty_rows_match _ _ rfl rfl

/-- C7 counterexample: with one passed and one failed outcome (and no
errors), `_build_report` classifies the run as `partial`, not `failed` as
the claim requires. -/
theorem C7_counterexample :
    overallStatus [ResultStatus.passed, ResultStatus.failed] =
      ResultStatus.partialStatus ∧
    ResultStatus.partialStatus ≠ ResultStatus.failed := by
  constructor
  · rfl
  · intro h
    cases h

/-- C7 amended: the valagent engine classifies exactly as the claim states
(any error outcome gives run `error`, else any failed gives `failed`, else
`passed`); the etl_validator report additionally splits the no-error,
some-failed case into `failed` when failures outnumber passes and
`partial` otherwise. -/
theorem C7_amended (run : ValidationRun)
    (completed : List (Except String TestCase)) (r : ValidationRun)
    (results : List ResultStatus)
    (h : executeValidationRun (some run) completed = .ok r) :
    ((r.status = .error ↔ ∃ tc ∈ r.test_cases, tc.status = .error) ∧
     (r.status = .failed ↔
       (¬ ∃ tc ∈ r.test_cases, tc.status = .error) ∧
       ∃ tc ∈ r.test_cases, tc.status = .failed) ∧
     (r.status = .passed ↔
       (¬ ∃ tc ∈ r.test_cases, tc.status = .error) ∧
       ¬ ∃ tc ∈ r.test_cases, tc.status = .failed)) ∧
    ((ResultStatus.error ∈ results → overallStatus results = .error) ∧
     (ResultStatus.error ∉ results → ResultStatus.failed ∈ results →
       overallStatus results =
         (if countStatus .passed results < countStatus .failed results
          then ResultStatus.failed else ResultStatus.partialStatus)) ∧
     (ResultStatus.error ∉ results → ResultStatus.failed ∉ results →
       overallStatus results = .passed)) := by
  have hmem : ∀ (s : ResultStatus), (0 < countStatus s results) ↔ s ∈ results := by
    intro s
    rw [countStatus, filter_length_pos_iff]
    constructor
    · rintro ⟨x, hx, hxs⟩
      have : x = s := by simpa using hxs
      exact this ▸ hx
    · intro hs
      exact ⟨s, hs, by simp⟩
  constructor
  · simp only [executeValidationRun, processCompleted, Except.ok.injEq] at h
    subst h
    dsimp only
    have herr : (0 < (List.filter (fun tc => decide (tc.status = ValidationStatus.error))
        (List.zipWith applyOutcome run.test_cases completed)).length) ↔
        ∃ tc ∈ List.zipWith applyOutcome run.test_cases completed,
          tc.status = ValidationStatus.error := by
      rw [filter_length_pos_iff]; simp
    have hfail : (0 < (List.filter (fun tc => decide (tc.status = ValidationStatus.failed))
        (List.zipWith applyOutcome run.test_cases completed)).length) ↔
        ∃ tc ∈ List.zipWith applyOutcome run.test_cases completed,
          tc.status = ValidationStatus.failed := by
      rw [filter_length_pos_iff]; simp
    rw [← herr, ← hfail]
    by_cases he : 0 < (List.filter (fun tc => decide (tc.status = ValidationStatus.error))
        (List.zipWith applyOutcome run.test_cases completed)).length <;>
      by_cases hf : 0 < (List.filter (fun tc => decide (tc.status = ValidationStatus.failed))
        (List.zipWith applyOutcome run.test_cases completed)).length <;>
      simp [he, hf]
  · refine ⟨?_, ?_, ?_⟩
    · intro hmem2
      have hpos : 0 < countStatus .error results := (hmem _).mpr hmem2
      simp [overallStatus, hpos]
    · intro hne hfmem
      have h1 : ¬ 0 < countStatus .error results := fun hc => hne ((hmem _).mp hc)
      have h2 : 0 < countStatus .failed results := (hmem _).mpr hfmem
      simp [overallStatus, h1, h2]
    · intro hne hnf
      have h1 : ¬ 0 < countStatus .error results := fun hc => hne ((hmem _).mp hc)
      have h2 : ¬ 0 < countStatus .failed results := fun hc => hnf ((hmem _).mp hc)
      simp [overallStatus, h1, h2]

theorem C7_amended_witness :
    overallStatus [ResultStatus.passed] = ResultStatus.passed :=
  (C7_amended
    { id := "r1", name := "run",
      test_cases := [{ id := "t1", name := "t", validation_type := "count",
                       status := .pending }],
      status := .pending, total_tests := 1, passed_tests := 0,
      failed_tests := 0, error_tests := 0 }
    [Except.ok { id := "t1", name := "t", validation_type := "count",
                 status := .failed }]
    _ [ResultStatus.passed] rfl).2.2.2 (by decide) (by decide)

/-- C2 counterexample: invoking the engine's execute on a run whose status
is already `passed` (hence not `pending`) is not rejected — there is no
`InvalidStateError` anywhere in the code — and it performs a second
execution that overwrites the roll-up counts (`passed_tests` drops from 1
to 0 here), contradicting both parts of the claim. -/
theorem C2_counterexample :
    (executeValidationRun
        (some { id := "r1", name := "run",
                test_cases := [{ id := "t1", name := "t",
                                 validation_type := "count",
                                 status := ValidationStatus.passed }],
                status := ValidationStatus.passed, total_tests := 1,
                passed_tests := 1, failed_tests := 0, error_tests := 0 })
        [Except.ok { id := "t1", name := "t", validation_type := "count",
                     status := ValidationStatus.failed }]).toOption.map
      (fun r => (r.status, r.passed_tests, r.failed_tests, r.error_tests)) =
      some (ValidationStatus.failed, 0, 1, 0) ∧
    ValidationStatus.passed ≠ ValidationStatus.pending := by
  constructor
  · rfl
  · intro h; cases h

/-- C2 amended: `execute_validation_run` performs no state check.  On a run
of any non-pending status it succeeds, re-executes, and behaves exactly as
it would on a fresh pending copy with zeroed counters: the roll-up counts
are recomputed from the new outcomes alone (overwritten, never
double-counted). -/
theorem C2_amended (run : ValidationRun)
    (completed : List (Except String TestCase))
    (h : run.status ≠ ValidationStatus.pending) :
    (executeValidationRun (some run) completed).toOption.isSome = true ∧
    executeValidationRun (some run) completed =
      executeValidationRun
        (some { run with
                status := ValidationStatus.pending
                passed_tests := 0
                failed_tests := 0
                error_tests := 0 }) completed := by
  cases run
  exact ⟨rfl, rfl⟩

theorem C2_amended_witness :
    (executeValidationRun
        (some { id := "r1", name := "run", test_cases := [],
                status := ValidationStatus.error, total_tests := 0,
                passed_tests := 0, failed_tests := 0, error_tests := 3 })
        []).toOption.isSome = true ∧
    executeValidationRun
        (some { id := "r1", name := "run", test_cases := [],
                status := ValidationStatus.error, total_tests := 0,
                passed_tests := 0, failed_tests := 0, error_tests := 3 }) [] =
      executeValidationRun
        (some { id := "r1", name := "run", test_cases := [],
                status := ValidationStatus.pending, total_tests := 0,
                passed_tests := 0, failed_tests := 0, error_tests := 0 }) [] :=
  C2_amended
    { id := "r1", name := "run", test_cases := [],
      status := ValidationStatus.error, total_tests := 0, passed_tests := 0,
      failed_tests := 0, error_tests := 3 } [] (by decide)

/-- C6 counterexample: the etl_validator query runner does propagate an
exception — on a backend error `_execute_single_query` discards the
failure proof it just built and raises `QueryExecutionError` to its
caller, contradicting the claim's "never propagates" for this cited
operation. -/
theorem C6_counterexample :
    executeSingleQuery (fun _ => BackendOutcome.err "connection refused")
      { id := "q1", database := "source", sql := "SELECT 1" } =
    Except.error { message := "Query execution failed",
                   queryText := "SELECT 1", database := some "source" } := by
  rfl

/-- C6 amended: valagent's `TestExecutor.execute_query` behaves as the
claim states — it is a total function into `QueryResult` (never raises)
and on a backend error or timeout returns `success = false`,
`row_count = 0` and the error text — while etl_validator's
`_execute_single_query` instead raises `QueryExecutionError` on any
backend failure (its parallel caller later converts that into an errored
outcome). -/
theorem C6_amended (backend : String → BackendOutcome)
    (sql database : String) (timeout : Nat) (vq : ValidationQuery)
    (hdb : database = "source" ∨ database = "target") :
    (∀ rows, backend sql = .ok rows →
       (executeQuery backend sql database timeout).success = true ∧
       (executeQuery backend sql database timeout).rows = rows ∧
       (executeQuery backend sql database timeout).row_count = rows.length) ∧
    (∀ msg, backend sql = .err msg →
       (executeQuery backend sql database timeout).success = false ∧
       (executeQuery backend sql database timeout).row_count = 0 ∧
       (executeQuery backend sql database timeout).error = some msg) ∧
    (backend sql = .timeout →
       (executeQuery backend sql database timeout).success = false ∧
       (executeQuery backend sql database timeout).row_count = 0 ∧
       (executeQuery backend sql database timeout).error =
         some ("Query timeout after " ++ toString timeout ++ " seconds")) ∧
    (∀ msg, backend vq.sql = .err msg →
       executeSingleQuery backend vq =
         Except.error { message := "Query execution failed",
                        queryText := ValAgent.pySlice vq.sql 200,
                        database := some vq.database }) := by
  refine ⟨?_, ?_, ?_, ?_⟩
  · intro rows hb
    rcases hdb with h | h <;> subst h <;> simp [executeQuery, hb]
  · intro msg hb
    rcases hdb with h | h <;> subst h <;> simp [executeQuery, hb]
  · intro hb
    rcases hdb with h | h <;> subst h <;> simp [executeQuery, hb]
  · intro msg hb
    simp [executeSingleQuery, hb]

theorem C6_amended_witness :
    (executeQuery (fun _ => BackendOutcome.err "relation missing")
        "SELECT 1" "source" 30).success = false ∧
    (executeQuery (fun _ => BackendOutcome.err "relation missing")
        "SELECT 1" "source" 30).row_count = 0 ∧
    (executeQuery (fun _ => BackendOutcome.err "relation missing")
        "SELECT 1" "source" 30).error = some "relation missing" :=
  (C6_amended (fun _ => BackendOutcome.err "relation missing") "SELECT 1"
    "source" 30 { id := "q1", database := "source", sql := "SELECT 1" }
    (Or.inl rfl)).2.1 "relation missing" rfl

/-- C9 counterexample: the executor performs no safety check — the outcome
of `execute_query` on `DROP TABLE users` depends on how the backend
answers that very statement, so the statement is submitted to the database
even though `_validate_sql_safety` rejects it; the claim that every
executed statement has first passed the check is false. -/
theorem C9_counterexample :
    (validateSqlSafety "DROP TABLE users").1 = false ∧
    executeQuery (fun _ => BackendOutcome.ok [[("a", Value.intV 1)]])
        "DROP TABLE users" "source" 30 ≠
      executeQuery (fun _ => BackendOutcome.err "denied")
        "DROP TABLE users" "source" 30 := by
  constructor
  · decide
  · intro h
    have h2 := congrArg QueryResult.success h
    simp [executeQuery] at h2

/-- C9 amended: the allow-list check runs only inside the SQL generator on
LLM-produced statements: any non-empty generated query that survives the
sanitization passes `_validate_sql_safety` (unsafe ones are replaced by
`None` and are therefore never executed, since the engine skips falsy
query fields); the executor itself submits whatever SQL it is handed
without any check. -/
theorem C9_amended (q : Option String) (s : String)
    (h : sanitizeGeneratedQuery q = some s) (hs : s ≠ "") :
    (validateSqlSafety s).1 = true := by
  cases q with
  | none => simp [sanitizeGeneratedQuery] at h
  | some q0 =>
    simp only [sanitizeGeneratedQuery] at h
    by_cases hcond : q0 ≠ "" ∧ (validateSqlSafety q0).1 = false
    · simp [hcond] at h
    · rw [if_neg hcond] at h
      have hq : q0 = s := by injection h
      subst hq
      rcases not_and_or.mp hcond with h1 | h2
      · exact absurd (not_not.mp h1) hs
      · exact Bool.not_eq_false _ |>.mp h2 |> fun hh => by
          cases hb : (validateSqlSafety q0).1
          · exact absurd hb h2
          · rfl

theorem C9_amended_witness :
    (validateSqlSafety "SELECT count(1) FROM orders").1 = true :=
  C9_amended (some "SELECT count(1) FROM orders")
    "SELECT count(1) FROM orders" (by decide) (by decide)

/-- C1 counterexample: with source value 0 and target value 3 inside
tolerance 4, the claim's rule says the pair matches (`|3| <= 4`), but
`compare_aggregations` requires the target to be exactly 0 when the source
is 0 and reports a mismatch. -/
theorem C1_counterexample :
    specAggregateMatchRule 0 3 4 ∧
    (compareAggregations
        { query := "SELECT sum(x) AS x FROM s", database := "source",
          success := true, rows := [[("x", Value.intV 0)]], row_count := 1 }
        { query := "SELECT sum(x) AS x FROM t", database := "target",
          success := true, rows := [[("x", Value.floatV 3)]],
          row_count := 1 }
        4).matched = false := by
  constructor
  · left
    refine ⟨rfl, ?_⟩
    rw [abs_of_nonneg (by norm_num)]
    norm_num
  · decide

/-- C1 amended: the two cited implementations disagree.  In valagent's
`compare_aggregations` a numeric pair with source 0 matches only when the
target is exactly 0 (tolerance ignored); only a nonzero source uses
`|s - t| / |s| <= tol`.  The etl_validator helper `compare_values`
implements the claim's rule as stated (for nonnegative tolerances). -/
theorem C1_amended (tolerance : ℚ) (sourceRow targetRow : Row) (key : String)
    (s t : ℚ) (hs : (rowGet sourceRow key).toQ? = some s)
    (ht : (rowGet targetRow key).toQ? = some t) (htol : 0 ≤ tolerance) :
    (aggKeyDiffs tolerance sourceRow targetRow key = [] ↔
      ((s = 0 ∧ t = 0) ∨ (s ≠ 0 ∧ abs (s - t) / abs s ≤ tolerance))) ∧
    (∀ sv tv : Value, sv.toQ? = some s → tv.toQ? = some t →
      (compare_values sv tv (some tolerance) = true ↔
        specAggregateMatchRule s t tolerance)) := by
  have hsn : rowGet sourceRow key ≠ .nullV := by
    intro hn; rw [hn] at hs; simp [Value.toQ?] at hs
  have htn : rowGet targetRow key ≠ .nullV := by
    intro hn; rw [hn] at ht; simp [Value.toQ?] at ht
  have hno1 : ¬ (rowGet sourceRow key = .nullV ∧ rowGet targetRow key = .nullV) :=
    fun hand => hsn hand.1
  have hno2 : ¬ (rowGet sourceRow key = .nullV ∨ rowGet targetRow key = .nullV) :=
    fun hor => hor.elim hsn htn
  constructor
  · simp only [aggKeyDiffs, if_neg hno1, if_neg hno2, hs, ht]
    by_cases h0 : s = 0
    · subst h0
      by_cases ht0 : t = 0
      · subst ht0; simp
      · simp [ht0]
    · by_cases hle : abs (s - t) / abs s ≤ tolerance
      · simp [h0, hle]
      · simp [h0, hle]
  · intro sv tv hsv htv
    have hsvn : sv ≠ .nullV := by
      intro hn; rw [hn] at hsv; simp [Value.toQ?] at hsv
    have htvn : tv ≠ .nullV := by
      intro hn; rw [hn] at htv; simp [Value.toQ?] at htv
    have hno3 : ¬ (sv = .nullV ∧ tv = .nullV) := fun hand => hsvn hand.1
    have hno4 : ¬ (sv = .nullV ∨ tv = .nullV) := fun hor => hor.elim hsvn htvn
    simp only [compare_values, if_neg hno3, if_neg hno4, hsv, htv]
    by_cases hb : s = 0 ∧ t = 0
    · rw [if_pos hb]
      obtain ⟨hb1, hb2⟩ := hb
      subst hb1; subst hb2
      simp [specAggregateMatchRule, htol]
    · rw [if_neg hb]
      by_cases h0 : s = 0
      · subst h0
        rw [if_pos rfl]
        simp [specAggregateMatchRule]
      · rw [if_neg h0]
        simp [specAggregateMatchRule, h0, abs_div]

theorem C1_amended_witness :
    aggKeyDiffs 1 [("x", Value.intV 2)] [("x", Value.intV 3)] "x" = [] ↔
      (((2 : ℚ) = 0 ∧ (3 : ℚ) = 0) ∨
       ((2 : ℚ) ≠ 0 ∧ abs ((2 : ℚ) - 3) / abs (2 : ℚ) ≤ 1)) :=
  (C1_amended 1 [("x", Value.intV 2)] [("x", Value.intV 3)] "x" 2 3
    (by decide) (by decide) (by norm_num)).1

/-- C5 counterexample: with an extracted source count 0 and target count 3
under tolerance 1, `compare_counts` reports a match (its percentage
difference is hard-coded to 1.0 when the source count is 0), while the
claim's rule `|s - t| / max(s, 1) <= tol` says mismatch (3 > 1), and the
counts are unequal. -/
theorem C5_counterexample :
    (compareCounts
        { query := "SELECT count(1) AS count FROM s", database := "source",
          success := true, rows := [[("count", Value.intV 0)]], row_count := 1 }
        { query := "SELECT count(1) AS count FROM t", database := "target",
          success := true, rows := [[("count", Value.intV 3)]], row_count := 1 }
        1).map (fun r => r.matched) = some true ∧
    ¬ specCountMatchRule 0 3 1 := by
  constructor
  · decide
  · rintro (h | h)
    · norm_num at h
    · rw [show max (0 : ℚ) 1 = 1 from max_eq_right (by norm_num)] at h
      norm_num at h

/-- C5 amended: valagent's `compare_counts` matches iff its percentage
difference (`|s - t| / s` for `s > 0`, else 1.0 when `t > 0` and 0.0
otherwise) is within the tolerance, where the counts are the values
extracted from the first row's `count`/`total` field (0 on failure or an
empty result), and it produces exactly zero differences on match and one
on mismatch; etl_validator's count comparison instead compares the row-list
lengths for exact equality, ignores the supplied tolerance entirely, and
always emits exactly one `ComparisonDetail`. -/
theorem C5_amended (source target : QueryResult) (tolerance : ℚ) (s t : ℚ)
    (r : ComparisonResult)
    (hs : (extractCount source).toQ? = some s)
    (ht : (extractCount target).toQ? = some t)
    (h : compareCounts source target tolerance = some r) :
    ((r.matched = true ↔ percentageDiff s t ≤ tolerance) ∧
     (r.matched = true → r.differences = []) ∧
     (r.matched = false → r.differences.length = 1)) ∧
    (∀ (sourceData targetData : List Row) (tol1 tol2 : Option ℚ),
      ((compareResultsCount sourceData targetData tol1).1 = true ↔
        sourceData.length = targetData.length) ∧
      (compareResultsCount sourceData targetData tol1).2.length = 1 ∧
      compareResultsCount sourceData targetData tol1 =
        compareResultsCount sourceData targetData tol2) := by
  constructor
  · simp only [compareCounts, hs, ht, Option.some.injEq] at h
    subst h
    by_cases hle : percentageDiff s t ≤ tolerance
    · simp [hle]
    · simp [hle]
  · intro sourceData targetData tol1 tol2
    refine ⟨by simp [compareResultsCount], by simp [compareResultsCount], rfl⟩

theorem C5_amended_witness :
    ((compareCounts
        { query := "SELECT count(1) AS count FROM s", database := "source",
          success := true, rows := [[("count", Value.intV 5)]], row_count := 1 }
        { query := "SELECT count(1) AS count FROM t", database := "target",
          success := true, rows := [[("count", Value.intV 5)]], row_count := 1 }
        0).get (by decide)).matched = true :=
  ((C5_amended
      { query := "SELECT count(1) AS count FROM s", database := "source",
        success := true, rows := [[("count", Value.intV 5)]], row_count := 1 }
      { query := "SELECT count(1) AS count FROM t", database := "target",
        success := true, rows := [[("count", Value.intV 5)]], row_count := 1 }
      0 5 5 _ (by decide) (by decide)
      (Option.some_get (by decide)).symm).1.1).mpr (by
    unfold percentageDiff
    rw [if_pos (by norm_num)]
    norm_num)

/-- C3: the parallel collectors of both code bases return one outcome per
input check, positionally aligned with the input list (the gather outcome
list is given in task order); an exception at position i becomes that
position's errored outcome carrying the message — in valagent the stored
test case with status `error` and the message, in etl_validator a failed
result dict with the message in `errors` — while a position whose
processing returned normally yields exactly its own result, untouched by
other positions. -/
theorem C3_parallel_isolation (tcs : List TestCase)
    (completed : List (Except String TestCase))
    (etlTcs : List EtlTestCase)
    (etlResults : List (Except String EtlExecResult))
    (hlen : completed.length = tcs.length)
    (hlen2 : etlResults.length = etlTcs.length) :
    ((processCompleted tcs completed).1.length = tcs.length) ∧
    (∀ (i : Nat) (msg : String) (tc0 : TestCase), tcs[i]? = some tc0 →
      completed[i]? = some (Except.error msg) →
      (processCompleted tcs completed).1[i]? =
        some { tc0 with status := .error, error_message := some msg }) ∧
    (∀ (i : Nat) (tc : TestCase), completed[i]? = some (Except.ok tc) →
      i < tcs.length →
      (processCompleted tcs completed).1[i]? = some tc) ∧
    ((processParallelResults etlTcs etlResults).length = etlTcs.length) ∧
    (∀ (i : Nat) (msg : String) (tc0 : EtlTestCase), etlTcs[i]? = some tc0 →
      etlResults[i]? = some (Except.error msg) →
      (processParallelResults etlTcs etlResults)[i]? =
        some { test_case_id := tc0.id, test_case_name := tc0.name,
               passed := false, errors := [msg] }) ∧
    (∀ (i : Nat) (res : EtlExecResult), etlResults[i]? = some (Except.ok res) →
      i < etlTcs.length →
      (processParallelResults etlTcs etlResults)[i]? = some res) := by
  refine ⟨?_, ?_, ?_, ?_, ?_, ?_⟩
  · simp [processCompleted, List.length_zipWith, hlen]
  · intro i msg tc0 h1 h2
    simp only [processCompleted]
    rw [zipWith_getElem_opt, h1, h2]
    rfl
  · intro i tc h1 hi
    simp only [processCompleted]
    rw [zipWith_getElem_opt, List.getElem?_eq_getElem hi, h1]
    rfl
  · simp [processParallelResults, List.length_zipWith, hlen2]
  · intro i msg tc0 h1 h2
    simp only [processParallelResults]
    rw [zipWith_getElem_opt, h1, h2]
    rfl
  · intro i res h1 hi
    simp only [processParallelResults]
    rw [zipWith_getElem_opt, List.getElem?_eq_getElem hi, h1]
    rfl

theorem C3_parallel_isolation_witness :
    (processCompleted
        [{ id := "t1", name := "a", validation_type := "count",
           status := ValidationStatus.pending },
         { id := "t2", name := "b", validation_type := "count",
           status := ValidationStatus.pending },
         { id := "t3", name := "c", validation_type := "count",
           status := ValidationStatus.pending }]
        [Except.ok { id := "t1", name := "a", validation_type := "count",
                     status := ValidationStatus.passed },
         Except.error "boom",
         Except.ok { id := "t3", name := "c", validation_type := "count",
                     status := ValidationStatus.failed }]).1[1]? =
      some { id := "t2", name := "b", validation_type := "count",
             status := ValidationStatus.error, error_message := some "boom" } :=
  (C3_parallel_isolation
    [{ id := "t1", name := "a", validation_type := "count",
       status := ValidationStatus.pending },
     { id := "t2", name := "b", validation_type := "count",
       status := ValidationStatus.pending },
     { id := "t3", name := "c", validation_type := "count",
       status := ValidationStatus.pending }]
    [Except.ok { id := "t1", name := "a", validation_type := "count",
                 status := ValidationStatus.passed },
     Except.error "boom",
     Except.ok { id := "t3", name := "c", validation_type := "count",
                 status := ValidationStatus.failed }]
    [] [] rfl rfl).2.1 1 "boom"
    { id := "t2", name := "b", validation_type := "count",
      status := ValidationStatus.pending } rfl rfl

/-- Helper: closed form of the sliced-and-capped append loop. -/
theorem capLoop_eq (cap : Nat) (mk : List Value → Difference) :
    ∀ (keys : List (List Value)) (acc : List Difference),
      capLoop cap mk keys acc = acc ++ (keys.take (cap - acc.length)).map mk := by
  intro keys
  induction keys with
  | nil => intro acc; simp [capLoop]
  | cons k ks ih =>
    intro acc
    by_cases hc : cap ≤ acc.length
    · have h0 : cap - acc.length = 0 := Nat.sub_eq_zero_of_le hc
      simp [capLoop, hc, h0]
    · have h2 : cap - acc.length = (cap - (acc.length + 1)) + 1 := by omega
      rw [capLoop.eq_def]
      simp only [if_neg hc]
      rw [ih (acc ++ [mk k]), h2, List.take_succ_cons]
      simp [List.append_assoc]

/-- Helper: the common-keys loop only ever appends images of `f`. -/
theorem commonLoop_decomp (cap : Nat) (f : List Value → Option Difference) :
    ∀ (keys : List (List Value)) (acc : List Difference),
      ∃ l, commonLoop cap f keys acc = acc ++ l ∧
        ∀ d ∈ l, ∃ k ∈ keys, f k = some d := by
  intro keys
  induction keys with
  | nil => intro acc; exact ⟨[], by simp [commonLoop], by simp⟩
  | cons k ks ih =>
    intro acc
    by_cases hc : cap ≤ acc.length
    · exact ⟨[], by simp [commonLoop, hc], by simp⟩
    · cases hf : f k with
      | some d =>
        obtain ⟨l, hl, hmem⟩ := ih (acc ++ [d])
        refine ⟨d :: l, ?_, ?_⟩
        · rw [commonLoop.eq_def]
          simp only [if_neg hc, hf]
          rw [hl]
          simp
        · intro x hx
          rcases List.mem_cons.mp hx with rfl | hx2
          · exact ⟨k, by simp, hf⟩
          · obtain ⟨k2, hk2, hfk⟩ := hmem x hx2
            exact ⟨k2, List.mem_cons_of_mem _ hk2, hfk⟩
      | none =>
        obtain ⟨l, hl, hmem⟩ := ih acc
        refine ⟨l, ?_, ?_⟩
        · rw [commonLoop.eq_def]
          simp only [if_neg hc, hf]
          exact hl
        · intro x hx
          obtain ⟨k2, hk2, hfk⟩ := hmem x hx
          exact ⟨k2, List.mem_cons_of_mem _ hk2, hfk⟩

/-- Helper: the accumulator only grows. -/
theorem commonLoop_length_mono (cap : Nat) (f : List Value → Option Difference) :
    ∀ (keys : List (List Value)) (acc : List Difference),
      acc.length ≤ (commonLoop cap f keys acc).length := by
  intro keys acc
  obtain ⟨l, hl, -⟩ := commonLoop_decomp cap f keys acc
  simp [hl]

/-- Helper: below the cap, a key producing a difference makes the loop
strictly grow. -/
theorem commonLoop_length_grows (cap : Nat) (f : List Value → Option Difference) :
    ∀ (keys : List (List Value)) (acc : List Difference) (k : List Value)
      (d : Difference), acc.length < cap → k ∈ keys → f k = some d →
      acc.length < (commonLoop cap f keys acc).length := by
  intro keys
  induction keys with
  | nil => intro acc k d _ hk _; cases hk
  | cons k0 ks ih =>
    intro acc k d hlt hk hf
    have hc : ¬ cap ≤ acc.length := by omega
    cases hf0 : f k0 with
    | some d0 =>
      rw [commonLoop.eq_def]
      simp only [if_neg hc, hf0]
      have h1 := commonLoop_length_mono cap f ks (acc ++ [d0])
      simp only [List.length_append, List.length_singleton] at h1
      omega
    | none =>
      rw [commonLoop.eq_def]
      simp only [if_neg hc, hf0]
      rcases List.mem_cons.mp hk with rfl | hk2
      · rw [hf0] at hf; cases hf
      · exact ih acc k d hlt hk2 hf

/-- Helper: when the accumulated list plus all remaining differences fit
under the cap, the loop appends every produced difference. -/
theorem commonLoop_fits (cap : Nat) (f : List Value → Option Difference) :
    ∀ (keys : List (List Value)) (acc : List Difference),
      acc.length + (keys.filterMap f).length ≤ cap →
      commonLoop cap f keys acc = acc ++ keys.filterMap f := by
  intro keys
  induction keys with
  | nil => intro acc _; simp [commonLoop]
  | cons k ks ih =>
    intro acc hle
    cases hf : f k with
    | some d =>
      have hfm : List.filterMap f (k :: ks) = d :: List.filterMap f ks := by
        simp [List.filterMap_cons, hf]
      rw [hfm] at hle ⊢
      have hc : ¬ cap ≤ acc.length := by
        simp only [List.length_cons] at hle
        omega
      rw [commonLoop.eq_def]
      simp only [if_neg hc, hf]
      rw [ih (acc ++ [d]) (by
        simp only [List.length_append, List.length_singleton,
          List.length_cons, List.length_nil] at hle ⊢
        omega)]
      simp
    | none =>
      have hfm : List.filterMap f (k :: ks) = List.filterMap f ks := by
        simp [List.filterMap_cons, hf]
      rw [hfm] at hle ⊢
      by_cases hc : cap ≤ acc.length
      · have h0 : (ks.filterMap f).length = 0 := by omega
        have hnil : ks.filterMap f = [] := List.length_eq_zero.mp h0
        rw [commonLoop.eq_def]
        simp [hc, hnil]
      · rw [commonLoop.eq_def]
        simp only [if_neg hc, hf]
        exact ih acc hle

/-- Helper: the loop never grows past the cap (or the starting length). -/
theorem commonLoop_length_le (cap : Nat) (f : List Value → Option Difference) :
    ∀ (keys : List (List Value)) (acc : List Difference),
      (commonLoop cap f keys acc).length ≤ max acc.length cap := by
  intro keys
  induction keys with
  | nil => intro acc; simp [commonLoop]
  | cons k ks ih =>
    intro acc
    by_cases hc : cap ≤ acc.length
    · rw [commonLoop.eq_def]
      simp only [if_pos hc]
      exact Nat.le_max_left _ _
    · cases hf : f k with
      | some d =>
        rw [commonLoop.eq_def]
        simp only [if_neg hc, hf]
        have h1 := ih (acc ++ [d])
        rw [List.length_append] at h1
        have h2 : max (acc.length + [d].length) cap = cap := by
          simp only [List.length_singleton]
          exact Nat.max_eq_right (by omega)
        rw [h2] at h1
        have h3 : cap ≤ max acc.length cap := Nat.le_max_right _ _
        omega
      | none =>
        rw [commonLoop.eq_def]
        simp only [if_neg hc, hf]
        exact ih acc

/-- Helper: the common-keys loop body only produces `value_mismatch`
differences. -/
theorem vmDiffAt_kind (keyColumns : List String)
    (sourceLookup targetLookup : List (List Value × Row))
    (cols : List String) (caseSensitive : Bool) (k : List Value)
    (d : Difference)
    (h : vmDiffAt keyColumns sourceLookup targetLookup cols caseSensitive k =
      some d) : d.kind = DiffKind.value_mismatch := by
  unfold vmDiffAt at h
  by_cases he : (rowValueDiffs cols ((lookupRow sourceLookup k).getD [])
      ((lookupRow targetLookup k).getD []) caseSensitive).isEmpty
  · rw [if_pos he] at h
    cases h
  · rw [if_neg he] at h
    injection h with h2
    rw [← h2]

/-- Helper: the itemized difference list of the pipeline never exceeds the
cap. -/
theorem dataRowsDiffs_length_le (cap : Nat) (mk1 mk2 : List Value → Difference)
    (missing extra common : List (List Value))
    (f : List Value → Option Difference) :
    (dataRowsDiffs cap mk1 mk2 missing extra common f).length ≤ cap := by
  unfold dataRowsDiffs
  set d1 := capLoop cap mk1 (missing.take cap) [] with hd1
  set d2 := capLoop cap mk2 (extra.take (cap - d1.length)) d1 with hd2
  have h1 : d1.length ≤ cap := by
    rw [hd1, capLoop_eq]
    rw [List.nil_append, List.length_map, List.length_take]
    exact Nat.min_le_left _ _
  have h2 : d2.length ≤ cap := by
    rw [hd2, capLoop_eq]
    rw [List.length_append, List.length_map, List.length_take]
    have hm : min (cap - d1.length) (extra.take (cap - d1.length)).length ≤
        cap - d1.length := Nat.min_le_left _ _
    omega
  have h3 := commonLoop_length_le cap f common d2
  rw [Nat.max_eq_right h2] at h3
  exact h3

/-- Helper: the pipeline's reported total (missing plus extra plus itemized
value mismatches) is zero exactly when the itemized list is empty. -/
theorem dataRowsDiffs_nil_iff (cap : Nat) (hcap : 1 ≤ cap)
    (mk1 mk2 : List Value → Difference)
    (missing extra common : List (List Value))
    (f : List Value → Option Difference)
    (hf : ∀ k d, f k = some d → d.kind = DiffKind.value_mismatch) :
    (missing.length + extra.length +
      ((dataRowsDiffs cap mk1 mk2 missing extra common f).filter
        (fun d => decide (d.kind = DiffKind.value_mismatch))).length = 0) ↔
    dataRowsDiffs cap mk1 mk2 missing extra common f = [] := by
  constructor
  · intro h
    have hmnil : missing = [] := List.length_eq_zero.mp (by omega)
    have henil : extra = [] := List.length_eq_zero.mp (by omega)
    subst hmnil; subst henil
    unfold dataRowsDiffs at h ⊢
    simp only [List.take_nil, capLoop] at h ⊢
    obtain ⟨l, hl, hmem⟩ := commonLoop_decomp cap f common []
    rw [List.nil_append] at hl
    rw [hl] at h ⊢
    have hfl : l.filter (fun d => decide (d.kind = DiffKind.value_mismatch)) = l := by
      rw [List.filter_eq_self]
      intro d hd
      obtain ⟨k, -, hfk⟩ := hmem d hd
      simp [hf k d hfk]
    rw [hfl] at h
    exact List.length_eq_zero.mp (by omega)
  · intro h
    have h2 := h
    unfold dataRowsDiffs at h2
    obtain ⟨l, hl, -⟩ := commonLoop_decomp cap f common
      (capLoop cap mk2
        (extra.take (cap - (capLoop cap mk1 (missing.take cap) []).length))
        (capLoop cap mk1 (missing.take cap) []))
    rw [h2] at hl
    obtain ⟨hd2nil, -⟩ := List.append_eq_nil.mp hl.symm
    rw [capLoop_eq] at hd2nil
    obtain ⟨hd1nil, hxnil⟩ := List.append_eq_nil.mp hd2nil
    have hmnil : missing = [] := by
      rw [capLoop_eq, List.nil_append] at hd1nil
      have ht := List.map_eq_nil_iff.mp hd1nil
      rcases List.take_eq_nil_iff.mp ht with h0 | h0
      · simp only [List.length_nil, Nat.sub_zero] at h0
        omega
      · rcases List.take_eq_nil_iff.mp h0 with h1 | h1
        · omega
        · exact h1
    have henil : extra = [] := by
      have ht := List.map_eq_nil_iff.mp hxnil
      rcases List.take_eq_nil_iff.mp ht with h0 | h0
      · have hd1e : capLoop cap mk1 (missing.take cap) [] = [] := hd1nil
        rw [hd1e] at h0
        simp only [List.length_nil, Nat.sub_zero] at h0
        omega
      · rcases List.take_eq_nil_iff.mp h0 with h1 | h1
        · have hd1e : capLoop cap mk1 (missing.take cap) [] = [] := hd1nil
          rw [hd1e] at h1
          simp only [List.length_nil, Nat.sub_zero] at h1
          omega
        · exact h1
    rw [hmnil, henil] at h ⊢
    rw [h]
    simp

/-- Helper: when the uncapped total fits under the cap, every difference is
itemized and the value-mismatch count is exact. -/
theorem dataRowsDiffs_below_cap (cap : Nat)
    (mk1 mk2 : List Value → Difference)
    (hk1 : ∀ k, (mk1 k).kind = DiffKind.missing_in_target)
    (hk2 : ∀ k, (mk2 k).kind = DiffKind.extra_in_target)
    (missing extra common : List (List Value))
    (f : List Value → Option Difference)
    (hf : ∀ k d, f k = some d → d.kind = DiffKind.value_mismatch)
    (h : missing.length + extra.length + (common.filterMap f).length ≤ cap) :
    ((dataRowsDiffs cap mk1 mk2 missing extra common f).filter
      (fun d => decide (d.kind = DiffKind.value_mismatch))).length =
    (common.filterMap f).length := by
  simp only [dataRowsDiffs]
  have hmt : missing.take cap = missing := List.take_of_length_le (by omega)
  have hlen1 : (missing.map mk1).length = missing.length := List.length_map _ _
  have hd1 : capLoop cap mk1 (missing.take cap) [] = missing.map mk1 := by
    rw [capLoop_eq, List.nil_append, hmt]
    have ht2 : missing.take (cap - List.length ([] : List Difference)) =
        missing := by
      apply List.take_of_length_le
      simp only [List.length_nil, Nat.sub_zero]
      omega
    rw [ht2]
  rw [hd1]
  have hd2 : capLoop cap mk2 (extra.take (cap - (missing.map mk1).length))
      (missing.map mk1) = missing.map mk1 ++ extra.map mk2 := by
    rw [capLoop_eq, List.take_take, min_self, hlen1]
    have he2 : extra.take (cap - missing.length) = extra := by
      apply List.take_of_length_le
      omega
    rw [he2]
  rw [hd2]
  have hd3 : commonLoop cap f common (missing.map mk1 ++ extra.map mk2) =
      (missing.map mk1 ++ extra.map mk2) ++ common.filterMap f := by
    apply commonLoop_fits
    rw [List.length_append, List.length_map, List.length_map]
    omega
  rw [hd3]
  rw [List.filter_append, List.filter_append]
  have hf1 : (missing.map mk1).filter
      (fun d => decide (d.kind = DiffKind.value_mismatch)) = [] := by
    rw [List.filter_eq_nil_iff]
    intro a ha
    obtain ⟨k, -, rfl⟩ := List.mem_map.mp ha
    simp [hk1 k]
  have hf2 : (extra.map mk2).filter
      (fun d => decide (d.kind = DiffKind.value_mismatch)) = [] := by
    rw [List.filter_eq_nil_iff]
    intro a ha
    obtain ⟨k, -, rfl⟩ := List.mem_map.mp ha
    simp [hk2 k]
  have hf3 : (common.filterMap f).filter
      (fun d => decide (d.kind = DiffKind.value_mismatch)) =
      common.filterMap f := by
    rw [List.filter_eq_self]
    intro a ha
    obtain ⟨k, -, hfk⟩ := List.mem_filterMap.mp ha
    simp [hf k a hfk]
  rw [hf1, hf2, hf3]
  simp

/-- C8: for the hash strategy, the row-level data comparison at its default
cap of 100, the aggregate strategy, and the target-only strategy, the
outcome satisfies `matched = true` exactly when the itemized differences
list is empty. -/
theorem C8_matched_iff_no_differences (source target : QueryResult)
    (keyColumns : List String) (compareColumns : Option (List String))
    (caseSensitive : Bool) (tolerance : ℚ) (cond : String)
    (expected : Option Value) (r : ComparisonResult) :
    ((compareHashes source target).matched = true ↔
      (compareHashes source target).differences = []) ∧
    ((compareDataRows source target keyColumns compareColumns caseSensitive
        100).matched = true ↔
      (compareDataRows source target keyColumns compareColumns caseSensitive
        100).differences = []) ∧
    ((compareAggregations source target tolerance).matched = true ↔
      (compareAggregations source target tolerance).differences = []) ∧
    (validateTargetOnly target cond expected = some r →
      (r.matched = true ↔ r.differences = [])) := by
  refine ⟨?_, ?_, ?_, ?_⟩
  · unfold compareHashes
    by_cases hm : hashOfRows source.rows == hashOfRows target.rows
    · simp [hm]
    · simp [hm]
  · unfold compareDataRows
    by_cases hsucc : source.success && target.success
    · rw [if_pos hsucc]
      dsimp only
      rw [decide_eq_true_eq]
      exact dataRowsDiffs_nil_iff 100 (by norm_num) _ _ _ _ _ _
        (fun k d hkd => vmDiffAt_kind _ _ _ _ _ _ _ hkd)
    · rw [if_neg hsucc]
      simp
  · unfold compareAggregations
    by_cases hsucc : source.success && target.success
    · rw [if_pos hsucc]
      dsimp only
      exact List.isEmpty_iff
    · rw [if_neg hsucc]
      simp
  · intro h
    unfold validateTargetOnly at h
    by_cases h1 : target.success = false
    · rw [if_pos h1, Option.some.injEq] at h
      subst h
      simp
    · rw [if_neg h1] at h
      by_cases h2 : cond = "empty"
      · rw [if_pos h2] at h
        rw [Option.some.injEq] at h
        subst h
        by_cases hm : target.row_count = 0 <;> simp [hm]
      · rw [if_neg h2] at h
        by_cases h3 : cond = "not_empty"
        · rw [if_pos h3, Option.some.injEq] at h
          subst h
          by_cases hm : 0 < target.row_count <;> simp [hm]
        · rw [if_neg h3] at h
          by_cases h4 : cond = "count_equals"
          · rw [if_pos h4, Option.some.injEq] at h
            subst h
            by_cases hm : pyEq
                (if target.rows.isEmpty then Value.intV 0
                 else rowGetD (target.rows.headD []) "count" (.intV 0))
                (expected.getD .nullV) <;> simp [hm]
          · rw [if_neg h4] at h
            by_cases h5 : cond = "count_greater_than"
            · rw [if_pos h5] at h
              dsimp only at h
              cases hpg : pyGt
                  (if target.rows.isEmpty then Value.intV 0
                   else rowGetD (target.rows.headD []) "count" (.intV 0))
                  (expected.getD .nullV) with
              | none => rw [hpg] at h; cases h
              | some b =>
                rw [hpg, Option.some.injEq] at h
                subst h
                cases b <;> simp
            · rw [if_neg h5, Option.some.injEq] at h
              subst h
              simp

theorem C8_matched_iff_no_differences_witness :
    ((compareHashes
        { query := "SELECT a FROM t", database := "source", success := true,
          rows := [[("a", Value.intV 1)]], row_count := 1, columns := ["a"] }
        { query := "SELECT a FROM t", database := "target", success := true,
          rows := [[("a", Value.intV 2)]], row_count := 1,
          columns := ["a"] }).matched = true ↔
      (compareHashes
        { query := "SELECT a FROM t", database := "source", success := true,
          rows := [[("a", Value.intV 1)]], row_count := 1, columns := ["a"] }
        { query := "SELECT a FROM t", database := "target", success := true,
          rows := [[("a", Value.intV 2)]], row_count := 1,
          columns := ["a"] }).differences = []) :=
  (C8_matched_iff_no_differences
    { query := "SELECT a FROM t", database := "source", success := true,
      rows := [[("a", Value.intV 1)]], row_count := 1, columns := ["a"] }
    { query := "SELECT a FROM t", database := "target", success := true,
      rows := [[("a", Value.intV 2)]], row_count := 1, columns := ["a"] }
    ["a"] none true 0 "empty" none
    { source_query := "N/A", target_query := "q", source_row_count := 0,
      target_row_count := 0, matched := true, differences := [],
      difference_count := 0, comparison_type := "custom",
      execution_time_ms := 0 }).1

/-- Helper: one aggregation key contributes at most one difference. -/
theorem aggKeyDiffs_length_le_one (tolerance : ℚ) (sourceRow targetRow : Row)
    (key : String) :
    (aggKeyDiffs tolerance sourceRow targetRow key).length ≤ 1 := by
  simp only [aggKeyDiffs]
  split_ifs <;>
    (try (cases hq1 : (rowGet sourceRow key).toQ? <;>
      cases hq2 : (rowGet targetRow key).toQ? <;>
      simp only [hq1, hq2])) <;>
    (try split_ifs) <;> simp

/-- Helper: the aggregation loop appends exactly one difference per key
whose comparison mismatches, with no cap of any kind: the total equals the
number of mismatching keys. -/
theorem aggDiffs_foldl_length (tolerance : ℚ) (sRow tRow : Row) :
    ∀ (keys : List String) (acc : List Difference),
      (keys.foldl (fun a k => a ++ aggKeyDiffs tolerance sRow tRow k)
          acc).length =
        acc.length +
          (keys.filter
            (fun k => !(aggKeyDiffs tolerance sRow tRow k).isEmpty)).length := by
  intro keys
  induction keys with
  | nil => intro acc; simp
  | cons k ks ih =>
    intro acc
    rw [List.foldl_cons, ih, List.filter_cons]
    by_cases he : (aggKeyDiffs tolerance sRow tRow k).isEmpty
    · have hnil : aggKeyDiffs tolerance sRow tRow k = [] :=
        List.isEmpty_iff.mp he
      simp [he, hnil]
    · have hne : aggKeyDiffs tolerance sRow tRow k ≠ [] := by
        intro hnil
        exact he (by simp [hnil])
      have hpos : 0 < (aggKeyDiffs tolerance sRow tRow k).length :=
        List.length_pos.mpr hne
      have hle := aggKeyDiffs_length_le_one tolerance sRow tRow k
      have hone : (aggKeyDiffs tolerance sRow tRow k).length = 1 := by omega
      simp only [he, Bool.not_false, if_pos, List.length_append, hone,
        List.length_cons]
      omega

set_option maxRecDepth 100000 in
/-- C4 counterexample, refuting both halves of the claim: (a) 101 source
rows against one target row under the default cap of 100 produce 100
itemized missing-row differences, the value-mismatch on the one common key
is cut off by the cap, and the reported `difference_count` is 100 while the
true total number of differences in the inputs is 101 — counts beyond the
cap are NOT fully reflected in `difference_count`; (b) an aggregate
comparison of two single-row results with 101 mismatching columns appends
101 itemized differences — more than the claimed cap of 100. -/
theorem C4_counterexample :
    (compareDataRows
      { query := "SELECT k, v FROM s", database := "source", success := true,
        rows := (List.range 101).map
          (fun i => [("k", Value.intV (Int.ofNat i)), ("v", Value.intV 0)]),
        row_count := 101, columns := ["k", "v"] }
      { query := "SELECT k, v FROM t", database := "target", success := true,
        rows := [[("k", Value.intV 0), ("v", Value.intV 1)]],
        row_count := 1, columns := ["k", "v"] }
      ["k"] none true 100).difference_count = 100 ∧
    uncappedDifferenceTotal
      { query := "SELECT k, v FROM s", database := "source", success := true,
        rows := (List.range 101).map
          (fun i => [("k", Value.intV (Int.ofNat i)), ("v", Value.intV 0)]),
        row_count := 101, columns := ["k", "v"] }
      { query := "SELECT k, v FROM t", database := "target", success := true,
        rows := [[("k", Value.intV 0), ("v", Value.intV 1)]],
        row_count := 1, columns := ["k", "v"] }
      ["k"] none true = 101 ∧
    (compareAggregations
      { query := "SELECT sums FROM s", database := "source", success := true,
        rows := [(List.range 101).map
          (fun i => ("c" ++ toString i, Value.intV 0))],
        row_count := 1, columns := [] }
      { query := "SELECT sums FROM t", database := "target", success := true,
        rows := [(List.range 101).map
          (fun i => ("c" ++ toString i, Value.intV 1))],
        row_count := 1, columns := [] }
      0).differences.length = 101 := by
  refine ⟨?_, ?_, ?_⟩
  · decide
  · decide
  · decide

/-- C4 amended: `compare_data_rows` itemizes at most `max_differences`
(default 100) Difference records (including on the execution-error path,
one record); its `difference_count` counts all missing and extra keys in
full but counts value-mismatch differences only as far as they were
itemized under the cap, so value mismatches beyond the cap are missing
from the count (whenever the true total fits under the cap the count is
exact); and `compare_aggregations` applies no cap of any kind — it
itemizes exactly one difference per mismatching column, however many
there are. -/
theorem C4_amended (source target : QueryResult) (keyColumns : List String)
    (compareColumns : Option (List String)) (caseSensitive : Bool)
    (tolerance : ℚ) (cap : Nat) (hcap : 1 ≤ cap) :
    ((compareDataRows source target keyColumns compareColumns caseSensitive
        cap).differences.length ≤ cap) ∧
    (source.success = true → target.success = true →
      uncappedDifferenceTotal source target keyColumns compareColumns
        caseSensitive ≤ cap →
      (compareDataRows source target keyColumns compareColumns caseSensitive
        cap).difference_count =
        uncappedDifferenceTotal source target keyColumns compareColumns
          caseSensitive) ∧
    (source.success = true → target.success = true →
      (compareAggregations source target tolerance).differences.length =
        ((keysUnion (source.rows.headD []) (target.rows.headD [])).filter
          (fun k => !(aggKeyDiffs tolerance (source.rows.headD [])
              (target.rows.headD []) k).isEmpty)).length) := by
  refine ⟨?_, ?_, ?_⟩
  · unfold compareDataRows
    by_cases hsucc : source.success && target.success
    · rw [if_pos hsucc]
      dsimp only
      exact dataRowsDiffs_length_le _ _ _ _ _ _ _
    · rw [if_neg hsucc]
      simpa using hcap
  · intro hs ht hle
    have hsucc : (source.success && target.success) = true := by
      rw [hs, ht]; rfl
    unfold compareDataRows
    rw [if_pos hsucc]
    dsimp only
    unfold uncappedDifferenceTotal at hle ⊢
    dsimp only at hle ⊢
    have hbc := dataRowsDiffs_below_cap cap
      (fun k => { kind := .missing_in_target, rowKey := keyColumns.zip k })
      (fun k => { kind := .extra_in_target, rowKey := keyColumns.zip k })
      (fun k => rfl) (fun k => rfl)
      ((keyList (buildLookup keyColumns source.rows)).filter
        (fun k => decide (k ∉ keyList (buildLookup keyColumns target.rows))))
      ((keyList (buildLookup keyColumns target.rows)).filter
        (fun k => decide (k ∉ keyList (buildLookup keyColumns source.rows))))
      ((keyList (buildLookup keyColumns source.rows)).filter
        (fun k => decide (k ∈ keyList (buildLookup keyColumns target.rows))))
      (vmDiffAt keyColumns (buildLookup keyColumns source.rows)
        (buildLookup keyColumns target.rows)
        (columnsToCompare compareColumns source.columns keyColumns)
        caseSensitive)
      (fun k d hkd => vmDiffAt_kind _ _ _ _ _ _ _ hkd) hle
    omega
  · intro hs ht
    have hsucc : (source.success && target.success) = true := by
      rw [hs, ht]; rfl
    unfold compareAggregations
    rw [if_pos hsucc]
    dsimp only
    simpa using aggDiffs_foldl_length tolerance (source.rows.headD [])
      (target.rows.headD [])
      (keysUnion (source.rows.headD []) (target.rows.headD [])) []

theorem C4_amended_witness :
    (compareDataRows
      { query := "SELECT k, v FROM s", database := "source", success := true,
        rows := [[("k", Value.intV 1), ("v", Value.intV 7)]],
        row_count := 1, columns := ["k", "v"] }
      { query := "SELECT k, v FROM t", database := "target", success := true,
        rows := [[("k", Value.intV 1), ("v", Value.intV 8)]],
        row_count := 1, columns := ["k", "v"] }
      ["k"] none true 100).differences.length ≤ 100 ∧
    (compareAggregations
      { query := "SELECT k, v FROM s", database := "source", success := true,
        rows := [[("k", Value.intV 1), ("v", Value.intV 7)]],
        row_count := 1, columns := ["k", "v"] }
      { query := "SELECT k, v FROM t", database := "target", success := true,
        rows := [[("k", Value.intV 1), ("v", Value.intV 8)]],
        row_count := 1, columns := ["k", "v"] }
      0).differences.length =
      ((keysUnion [("k", Value.intV 1), ("v", Value.intV 7)]
          [("k", Value.intV 1), ("v", Value.intV 8)]).filter
        (fun k => !(aggKeyDiffs 0 [("k", Value.intV 1), ("v", Value.intV 7)]
            [("k", Value.intV 1), ("v", Value.intV 8)] k).isEmpty)).length :=
  ⟨(C4_amended
      { query := "SELECT k, v FROM s", database := "source", success := true,
        rows := [[("k", Value.intV 1), ("v", Value.intV 7)]],
        row_count := 1, columns := ["k", "v"] }
      { query := "SELECT k, v FROM t", database := "target", success := true,
        rows := [[("k", Value.intV 1), ("v", Value.intV 8)]],
        row_count := 1, columns := ["k", "v"] }
      ["k"] none true 0 100 (by norm_num)).1,
   (C4_amended
      { query := "SELECT k, v FROM s", database := "source", success := true,
        rows := [[("k", Value.intV 1), ("v", Value.intV 7)]],
        row_count := 1, columns := ["k", "v"] }
      { query := "SELECT k, v FROM t", database := "target", success := true,
        rows := [[("k", Value.intV 1), ("v", Value.intV 8)]],
        row_count := 1, columns := ["k", "v"] }
      ["k"] none true 0 100 (by norm_num)).2.2 rfl rfl⟩
